import Mathlib

/-!
Shallow embedding of the Fuel OPR hybrid contribution composer of
src/core/db/dataUtils.ts: tolerant field extraction from scouted entries,
per-team aggregation, the defense impact estimator, the confidence and
hybrid index computation (buildRows), and the final ordering.

Numbers are modelled as rationals.  JavaScript values inspected by the
extraction layer are modelled by JSVal: a finite number, a string together
with the finite result of Number coercion when there is one, or any other
value.  Non-finite numbers (NaN, Infinity) are outside the value model —
the claims quantify over finite numeric inputs — and the question whether
the computation ever creates a non-finite number from finite inputs is
settled by a checked variant of the computation in which every division
site fails on a zero divisor.  Absent object fields, null and undefined
are all modelled as Option.none.
-/

/-- A JavaScript value as inspected by the extraction helpers. -/
inductive JSVal where
  | num (q : ℚ)
  | str (parsed : Option ℚ)
  | other
deriving DecidableEq

/-- Embeds toFiniteNumber (dataUtils.ts): a finite number is returned as
is, a string is returned as the finite result of Number coercion when
there is one, everything else yields null. -/
def toFiniteNumber : Option JSVal → Option ℚ
  | some (JSVal.num q) => some q
  | some (JSVal.str parsed) => parsed
  | _ => none

/-- Embeds a probe of the form `typeof x === 'number' ? x : undefined`. -/
def numProbe : Option JSVal → Option ℚ
  | some (JSVal.num q) => some q
  | _ => none

/-- Embeds a check of the form `typeof x === 'number'`. -/
def isNumber : Option JSVal → Bool
  | some (JSVal.num _) => true
  | _ => false

/-- One element of an actions array: the fields the pass extractor reads.
The type field is modelled as the string it holds when it holds one. -/
structure ActionObj where
  type : Option String
  amount : Option JSVal
  count : Option JSVal
  value : Option JSVal
deriving DecidableEq

/-- The gameData.scaledMetrics sub-record. -/
structure ScaledMetrics where
  scaledAutoFuel : Option JSVal
  scaledTeleopFuel : Option JSVal
deriving DecidableEq

/-- The gameData.statbotics sub-record. -/
structure StatboticsData where
  strengthOfSchedule : Option JSVal
  sos : Option JSVal
  scheduleStrength : Option JSVal
deriving DecidableEq

/-- A per-phase sub-record (gameData.auto / gameData.teleop).  An actions
field of none stands for an absent field or a non-array value; a none
element of the list stands for a non-object array element. -/
structure PhaseData where
  fuelScoredCount : Option JSVal
  fuelScored : Option JSVal
  fuelPassedCount : Option JSVal
  fuelNeutralAlliancePass : Option JSVal
  fuelOpponentAlliancePass : Option JSVal
  fuelOpponentNeutralPass : Option JSVal
  actions : Option (List (Option ActionObj))
deriving DecidableEq

/-- The gameData record of a scouted entry: exactly the fields the
composer's extraction helpers probe. -/
structure GameData where
  auto : Option PhaseData
  teleop : Option PhaseData
  scaledMetrics : Option ScaledMetrics
  autoFuelScored : Option JSVal
  teleopFuelScored : Option JSVal
  autoFuelPassed : Option JSVal
  teleopFuelPassed : Option JSVal
  autoFuelPassedCount : Option JSVal
  teleopFuelPassedCount : Option JSVal
  totalFuelPassed : Option JSVal
  fuelPassed : Option JSVal
  auto_fuel_neutral_alliance_pass : Option JSVal
  tele_fuel_neutral_alliance_pass : Option JSVal
  tele_fuel_opponent_alliance_pass : Option JSVal
  tele_fuel_opponent_neutral_pass : Option JSVal
  autoFuelNeutralAlliancePass : Option JSVal
  teleFuelNeutralAlliancePass : Option JSVal
  teleFuelOpponentAlliancePass : Option JSVal
  teleFuelOpponentNeutralPass : Option JSVal
  autoActions : Option (List (Option ActionObj))
  teleopActions : Option (List (Option ActionObj))
  strengthOfSchedule : Option JSVal
  sos : Option JSVal
  statbotics : Option StatboticsData
deriving DecidableEq

/-- The empty object used for `entry.gameData ?? {}`. -/
def GameData.empty : GameData :=
  ⟨none, none, none, none, none, none, none, none, none, none, none, none,
   none, none, none, none, none, none, none, none, none, none, none, none⟩

/-- A scouted entry as consumed by the composer. -/
structure ScoutingEntry where
  teamNumber : ℕ
  gameData : Option GameData
deriving DecidableEq

/-- The gameData of an entry, with the `?? {}` default. -/
def ScoutingEntry.gd (e : ScoutingEntry) : GameData :=
  e.gameData.getD GameData.empty

/-- Embeds parseFuelCounts: per phase, the first field of number type
among fuelScoredCount, fuelScored and the flat alias wins, else 0. -/
def parseFuelCounts (gameData : GameData) : ℚ × ℚ :=
  let auto := gameData.auto
  let teleop := gameData.teleop
  let autoFuel :=
    (((numProbe (auto.bind PhaseData.fuelScoredCount)).orElse
      (fun _ => numProbe (auto.bind PhaseData.fuelScored))).orElse
      (fun _ => numProbe gameData.autoFuelScored)).getD 0
  let teleopFuel :=
    (((numProbe (teleop.bind PhaseData.fuelScoredCount)).orElse
      (fun _ => numProbe (teleop.bind PhaseData.fuelScored))).orElse
      (fun _ => numProbe gameData.teleopFuelScored)).getD 0
  (autoFuel, teleopFuel)

/-- Embeds sumActionPassAmounts: none when the input is not an array or
holds no pass-typed action, otherwise the sum over pass-typed actions of
the coerced amount (amount ?? count ?? value), defaulting to 1. -/
def sumActionPassAmounts (actions : Option (List (Option ActionObj))) : Option ℚ :=
  match actions with
  | none => none
  | some l =>
    let r := l.foldl (fun (acc : ℚ × Bool) action =>
      match action with
      | none => acc
      | some typed =>
        if typed.type = some "pass" ∨ typed.type = some "pass_alliance" then
          let amount := toFiniteNumber ((typed.amount.orElse
            (fun _ => typed.count)).orElse (fun _ => typed.value))
          (acc.1 + amount.getD 1, true)
        else acc) (0, false)
    if r.2 then some r.1 else none

/-- The ordered list of direct alias fields probed by extractPassingValue. -/
def passingFields (gameData : GameData) : List (Option JSVal) :=
  let auto := gameData.auto
  let teleop := gameData.teleop
  [auto.bind PhaseData.fuelPassedCount,
   teleop.bind PhaseData.fuelPassedCount,
   gameData.autoFuelPassed,
   gameData.teleopFuelPassed,
   gameData.autoFuelPassedCount,
   gameData.teleopFuelPassedCount,
   gameData.totalFuelPassed,
   gameData.fuelPassed,
   gameData.auto_fuel_neutral_alliance_pass,
   gameData.tele_fuel_neutral_alliance_pass,
   gameData.tele_fuel_opponent_alliance_pass,
   gameData.tele_fuel_opponent_neutral_pass,
   gameData.autoFuelNeutralAlliancePass,
   gameData.teleFuelNeutralAlliancePass,
   gameData.teleFuelOpponentAlliancePass,
   gameData.teleFuelOpponentNeutralPass,
   auto.bind PhaseData.fuelNeutralAlliancePass,
   auto.bind PhaseData.fuelOpponentAlliancePass,
   teleop.bind PhaseData.fuelNeutralAlliancePass,
   teleop.bind PhaseData.fuelOpponentAlliancePass,
   teleop.bind PhaseData.fuelOpponentNeutralPass]

/-- The ordered list of action-derived probes of extractPassingValue. -/
def passingActionDerived (gameData : GameData) : List (Option ℚ) :=
  [sumActionPassAmounts gameData.autoActions,
   sumActionPassAmounts gameData.teleopActions,
   sumActionPassAmounts (gameData.auto.bind PhaseData.actions),
   sumActionPassAmounts (gameData.teleop.bind PhaseData.actions)]

/-- Embeds extractPassingValue: coerce every probe to a finite number,
drop the failures, and return (0, false) when nothing is left, else the
sum of all remaining values together with the has-data flag. -/
def extractPassingValue (gameData : GameData) : ℚ × Bool :=
  let numericValues :=
    ((passingFields gameData).map toFiniteNumber
      ++ passingActionDerived gameData).filterMap id
  if numericValues.isEmpty then (0, false)
  else (numericValues.foldl (fun sum v => sum + v) 0, true)

/-- Embeds extractSosValue: the direct fields first (presence chain then
coercion), else the statbotics sub-record (presence chain then coercion). -/
def extractSosValue (gameData : GameData) : Option ℚ :=
  match toFiniteNumber (gameData.strengthOfSchedule.orElse (fun _ => gameData.sos)) with
  | some direct => some direct
  | none =>
    match gameData.statbotics with
    | none => none
    | some statbotics =>
      toFiniteNumber ((statbotics.strengthOfSchedule.orElse
        (fun _ => statbotics.sos)).orElse (fun _ => statbotics.scheduleStrength))

/-- One alliance of a cached match: team keys, where none stands for a
key whose numeric part does not parse to a finite number. -/
structure AllianceInfo where
  team_keys : List (Option ℕ)
deriving DecidableEq

/-- The alliances record of a cached match. -/
structure MatchAlliances where
  red : AllianceInfo
  blue : AllianceInfo
deriving DecidableEq

/-- The hubScore sub-record of a score breakdown side. -/
structure HubScore where
  totalCount : Option JSVal
deriving DecidableEq

/-- One side of a score breakdown. -/
structure ScoreBreakdownAlliance where
  hubScore : Option HubScore
deriving DecidableEq

/-- The score breakdown of a cached match. -/
structure ScoreBreakdown where
  red : Option ScoreBreakdownAlliance
  blue : Option ScoreBreakdownAlliance
deriving DecidableEq

/-- A cached TBA match as consumed by buildRows. -/
structure CachedMatch where
  comp_level : String
  alliances : MatchAlliances
  score_breakdown : Option ScoreBreakdown
deriving DecidableEq

/-- The alliance selector 'red' | 'blue'. -/
inductive AllianceColor where
  | red
  | blue
deriving DecidableEq

/-- The opposing alliance selector. -/
def AllianceColor.opp : AllianceColor → AllianceColor
  | AllianceColor.red => AllianceColor.blue
  | AllianceColor.blue => AllianceColor.red

/-- Selects one side of the alliances record. -/
def MatchAlliances.side (a : MatchAlliances) : AllianceColor → AllianceInfo
  | AllianceColor.red => a.red
  | AllianceColor.blue => a.blue

/-- Selects one side of the score breakdown. -/
def ScoreBreakdown.side (s : ScoreBreakdown) : AllianceColor → Option ScoreBreakdownAlliance
  | AllianceColor.red => s.red
  | AllianceColor.blue => s.blue

/-- Embeds getAllianceTeams: parse each key's numeric part and drop the
keys that do not resolve to a finite number. -/
def getAllianceTeams (m : CachedMatch) (alliance : AllianceColor) : List ℕ :=
  ((m.alliances.side alliance).team_keys).filterMap id

/-- Embeds getObservedTotal: the hubScore totalCount of the given side,
coerced to a finite number, with 0 for anything missing or non-finite. -/
def getObservedTotal (m : CachedMatch) (alliance : AllianceColor) : ℚ :=
  (toFiniteNumber (((m.score_breakdown.bind (fun s => s.side alliance)).bind
    ScoreBreakdownAlliance.hubScore).bind HubScore.totalCount)).getD 0

/-- Embeds the eligible-match filter: playoffs only when requested. -/
def eligibleMatches (matchList : List CachedMatch) (includePlayoffs : Bool) : List CachedMatch :=
  matchList.filter (fun m => includePlayoffs || m.comp_level == "qm")

/-- One row of the OPR solver result consumed by buildRows.  The solver
itself lives in the game-template fuelOpr module, outside this code base;
buildRows receives its output as data. -/
structure FuelOPRTeam where
  teamNumber : ℕ
  autoFuelOPR : ℚ
  teleopFuelOPR : ℚ
  totalFuelOPR : ℚ
  matchesPlayed : ℕ
deriving DecidableEq

/-- Embeds the oprByTeam map (last insertion wins on duplicate keys). -/
def oprByTeam (oprRows : List FuelOPRTeam) (team : ℕ) : Option FuelOPRTeam :=
  oprRows.foldl (fun acc r => if r.teamNumber = team then some r else acc) none

/-- The scaledByTeam aggregate of one team.  The source field name is
matches, a reserved word here, so it appears as matchesCount. -/
structure ScaledAgg where
  matchesCount : ℕ
  autoSum : ℚ
  teleopSum : ℚ
  fuelDataMatches : ℕ
deriving DecidableEq

/-- Whether scaledMetrics.scaledAutoFuel is a number. -/
def hasScaledAuto (gameData : GameData) : Bool :=
  isNumber (gameData.scaledMetrics.bind ScaledMetrics.scaledAutoFuel)

/-- Whether scaledMetrics.scaledTeleopFuel is a number. -/
def hasScaledTeleop (gameData : GameData) : Bool :=
  isNumber (gameData.scaledMetrics.bind ScaledMetrics.scaledTeleopFuel)

/-- Whether any raw auto fuel alias is a number. -/
def hasRawAuto (gameData : GameData) : Bool :=
  isNumber (gameData.auto.bind PhaseData.fuelScoredCount)
    || isNumber (gameData.auto.bind PhaseData.fuelScored)
    || isNumber gameData.autoFuelScored

/-- Whether any raw teleop fuel alias is a number. -/
def hasRawTeleop (gameData : GameData) : Bool :=
  isNumber (gameData.teleop.bind PhaseData.fuelScoredCount)
    || isNumber (gameData.teleop.bind PhaseData.fuelScored)
    || isNumber gameData.teleopFuelScored

/-- Whether the entry carries any usable (scaled or raw) fuel data. -/
def hasFuelData (gameData : GameData) : Bool :=
  hasScaledAuto gameData || hasScaledTeleop gameData
    || hasRawAuto gameData || hasRawTeleop gameData

/-- The per-entry scaled auto value: the scaled metric when it is a
number (with the raw fallback of the ?? chain), else the raw count. -/
def entryScaledAuto (gameData : GameData) : ℚ :=
  if hasScaledAuto gameData then
    (numProbe (gameData.scaledMetrics.bind ScaledMetrics.scaledAutoFuel)).getD
      (parseFuelCounts gameData).1
  else (parseFuelCounts gameData).1

/-- The per-entry scaled teleop value. -/
def entryScaledTeleop (gameData : GameData) : ℚ :=
  if hasScaledTeleop gameData then
    (numProbe (gameData.scaledMetrics.bind ScaledMetrics.scaledTeleopFuel)).getD
      (parseFuelCounts gameData).2
  else (parseFuelCounts gameData).2

/-- One entry of the scaledByTeam fold: every entry of the team counts
one match; entries with fuel data also add their scaled values. -/
def scaledStep (team : ℕ) (acc : ScaledAgg) (e : ScoutingEntry) : ScaledAgg :=
  if e.teamNumber = team then
    let gameData := e.gd
    if hasFuelData gameData then
      ⟨acc.matchesCount + 1, acc.autoSum + entryScaledAuto gameData,
       acc.teleopSum + entryScaledTeleop gameData, acc.fuelDataMatches + 1⟩
    else ⟨acc.matchesCount + 1, acc.autoSum, acc.teleopSum, acc.fuelDataMatches⟩
  else acc

/-- Embeds the scaledByTeam map for one team. -/
def scaledByTeam (entries : List ScoutingEntry) (team : ℕ) : ScaledAgg :=
  entries.foldl (scaledStep team) ⟨0, 0, 0, 0⟩

/-- The passingByTeam aggregate of one team. -/
structure PassingAgg where
  passSum : ℚ
  passDataMatches : ℕ
deriving DecidableEq

/-- One entry of the passingByTeam fold. -/
def passingStep (team : ℕ) (acc : PassingAgg) (e : ScoutingEntry) : PassingAgg :=
  if e.teamNumber = team then
    let passing := extractPassingValue e.gd
    if passing.2 then ⟨acc.passSum + passing.1, acc.passDataMatches + 1⟩
    else acc
  else acc

/-- Embeds the passingByTeam map for one team. -/
def passingByTeam (entries : List ScoutingEntry) (team : ℕ) : PassingAgg :=
  entries.foldl (passingStep team) ⟨0, 0⟩

/-- The sosByTeam aggregate of one team. -/
structure SosAgg where
  sum : ℚ
  count : ℕ
deriving DecidableEq

/-- One entry of the sosByTeam fold. -/
def sosStep (team : ℕ) (acc : SosAgg) (e : ScoutingEntry) : SosAgg :=
  if e.teamNumber = team then
    match extractSosValue e.gd with
    | some v => ⟨acc.sum + v, acc.count + 1⟩
    | none => acc
  else acc

/-- Embeds the sosByTeam map for one team. -/
def sosByTeam (entries : List ScoutingEntry) (team : ℕ) : SosAgg :=
  entries.foldl (sosStep team) ⟨0, 0⟩

/-- The per-team-per-(match, alliance) suppression sample: the opposing
alliance's expected output (sum of each opposing team's total OPR, 0 for
teams absent from the OPR result) minus its observed total, divided by
the number of defending teams (0 when the defending alliance is empty). -/
def perTeamSuppression (oprRows : List FuelOPRTeam) (m : CachedMatch)
    (alliance : AllianceColor) : ℚ :=
  let defendingTeams := getAllianceTeams m alliance
  let opponentAlliance := alliance.opp
  let opponentTeams := getAllianceTeams m opponentAlliance
  let observedOpponentFuel := getObservedTotal m opponentAlliance
  let expectedOpponentFuel := opponentTeams.foldl
    (fun sum t => sum + ((oprByTeam oprRows t).map FuelOPRTeam.totalFuelOPR).getD 0) 0
  let suppression := expectedOpponentFuel - observedOpponentFuel
  if 0 < defendingTeams.length then suppression / (defendingTeams.length : ℚ) else 0

/-- The defenseByTeam aggregate of one team. -/
structure DefenseAgg where
  suppressionSum : ℚ
  samples : ℕ
deriving DecidableEq

/-- One match of the defense fold: both alliances of the match add one
sample per membership of the team in the defending alliance. -/
def defenseStep (oprRows : List FuelOPRTeam) (team : ℕ) (acc : DefenseAgg)
    (m : CachedMatch) : DefenseAgg :=
  [AllianceColor.red, AllianceColor.blue].foldl (fun acc2 alliance =>
    let cnt := (getAllianceTeams m alliance).count team
    ⟨acc2.suppressionSum + cnt * perTeamSuppression oprRows m alliance,
     acc2.samples + cnt⟩) acc

/-- Embeds the defenseByTeam map for one team over the eligible matches. -/
def defenseByTeam (oprRows : List FuelOPRTeam) (matchList : List CachedMatch)
    (includePlayoffs : Bool) (team : ℕ) : DefenseAgg :=
  (eligibleMatches matchList includePlayoffs).foldl (defenseStep oprRows team) ⟨0, 0⟩

/-- The set of teams receiving a row: keys of the OPR, scaled/passing and
defense maps.  The pre-sort order of this list is immaterial to the final
output, whose order is fully determined by the sort comparator. -/
def allTeamNumbers (oprRows : List FuelOPRTeam) (matchList : List CachedMatch)
    (entries : List ScoutingEntry) (includePlayoffs : Bool) : List ℕ :=
  (oprRows.map FuelOPRTeam.teamNumber
    ++ entries.map ScoutingEntry.teamNumber
    ++ (eligibleMatches matchList includePlayoffs).flatMap
        (fun m => getAllianceTeams m AllianceColor.red
          ++ getAllianceTeams m AllianceColor.blue)).dedup

/-- clamp to [0, 1], as written Math.max(0, Math.min(1, x)). -/
def clamp01 (x : ℚ) : ℚ := max 0 (min 1 x)

/-- The schedule-strength penalty from the per-team average when one
exists: clamp01 of the average divided by 6, else 0. -/
def sosPenaltyOf (avgSos : Option ℚ) : ℚ :=
  match avgSos with
  | some v => clamp01 (v / 6)
  | none => 0

/-- The under-sampling penalty against the fixed target of 6 matches. -/
def matchPenaltyOf (matchesPlayed : ℕ) : ℚ :=
  let targetMatches : ℚ := 6
  max 0 ((targetMatches - (matchesPlayed : ℚ)) / targetMatches)

/-- The missing-scaled-data penalty: 0.6 without fuel data, else 0. -/
def missingScaledPenaltyOf (hasScaledFuelData : Bool) : ℚ :=
  if hasScaledFuelData then 0 else 0.6

/-- The OPR-versus-scaled-average gap penalty. -/
def gapPenaltyOf (totalFuelOPR scaledTotalAvg : ℚ) (hasScaledFuelData : Bool) : ℚ :=
  let gap := |totalFuelOPR - scaledTotalAvg|
  let scaleBase := max 1 (max |totalFuelOPR| |scaledTotalAvg|)
  if hasScaledFuelData then clamp01 (gap / scaleBase) else 0

/-- The final output row of the composer. -/
structure FuelOPRDisplayRow where
  teamNumber : ℕ
  matchesPlayed : ℕ
  autoFuelOPR : ℚ
  teleopFuelOPR : ℚ
  totalFuelOPR : ℚ
  scaledAutoAvg : ℚ
  scaledTeleopAvg : ℚ
  scaledTotalAvg : ℚ
  confidenceScore : ℚ
  confidencePenalty : ℚ
  sosPenalty : ℚ
  hybridScorerIndex : ℚ
  assistImpact : ℚ
  defenseImpact : ℚ
  totalContributionIndex : ℚ
deriving DecidableEq

/-- Embeds the per-team body of buildRows (dataUtils.ts lines 1664-1736). -/
def buildRow (oprRows : List FuelOPRTeam) (matchList : List CachedMatch)
    (entries : List ScoutingEntry) (includePlayoffs : Bool)
    (teamNumber : ℕ) : FuelOPRDisplayRow :=
  let oprTeam := oprByTeam oprRows teamNumber
  let scaledTeam := scaledByTeam entries teamNumber
  let matchesPlayed := max ((oprTeam.map FuelOPRTeam.matchesPlayed).getD 0) scaledTeam.matchesCount
  let fuelDataMatches := scaledTeam.fuelDataMatches
  let hasScaledFuelData : Bool := decide (0 < fuelDataMatches)
  let scaledAutoAvg := if hasScaledFuelData then scaledTeam.autoSum / (fuelDataMatches : ℚ) else 0
  let scaledTeleopAvg := if hasScaledFuelData then scaledTeam.teleopSum / (fuelDataMatches : ℚ) else 0
  let scaledTotalAvg := scaledAutoAvg + scaledTeleopAvg
  let totalFuelOPR := (oprTeam.map FuelOPRTeam.totalFuelOPR).getD 0
  let passingAggregate := passingByTeam entries teamNumber
  let hasPassingData : Bool := decide (0 < passingAggregate.passDataMatches)
  let passingAvg := if hasPassingData then
      passingAggregate.passSum / (passingAggregate.passDataMatches : ℚ) else 0
  let defenseAggregate := defenseByTeam oprRows matchList includePlayoffs teamNumber
  let defenseImpact := if 0 < defenseAggregate.samples then
      defenseAggregate.suppressionSum / (defenseAggregate.samples : ℚ) else 0
  let assistImpact := passingAvg
  let sosAggregate := sosByTeam entries teamNumber
  let avgSos : Option ℚ := if 0 < sosAggregate.count then
      some (sosAggregate.sum / (sosAggregate.count : ℚ)) else none
  let sosPenalty := sosPenaltyOf avgSos
  let matchPenalty := matchPenaltyOf matchesPlayed
  let gapPenalty := gapPenaltyOf totalFuelOPR scaledTotalAvg hasScaledFuelData
  let missingScaledPenalty := missingScaledPenaltyOf hasScaledFuelData
  let confidencePenalty := clamp01 (0.35 * matchPenalty + 0.25 * gapPenalty
    + 0.15 * sosPenalty + 0.25 * missingScaledPenalty)
  let confidenceScore := 1 - confidencePenalty
  let hybridBase := if hasScaledFuelData then
      0.6 * scaledTotalAvg + 0.4 * totalFuelOPR else totalFuelOPR
  let hybridScorerIndex := hybridBase * confidenceScore
  let assistComponent := if hasPassingData then assistImpact * 0.2 else 0
  let defenseComponent := defenseImpact * 0.2
  let totalContributionIndex := hybridScorerIndex + assistComponent + defenseComponent
  { teamNumber := teamNumber
    matchesPlayed := matchesPlayed
    autoFuelOPR := (oprTeam.map FuelOPRTeam.autoFuelOPR).getD 0
    teleopFuelOPR := (oprTeam.map FuelOPRTeam.teleopFuelOPR).getD 0
    totalFuelOPR := totalFuelOPR
    scaledAutoAvg := scaledAutoAvg
    scaledTeleopAvg := scaledTeleopAvg
    scaledTotalAvg := scaledTotalAvg
    confidenceScore := confidenceScore
    confidencePenalty := confidencePenalty
    sosPenalty := sosPenalty
    hybridScorerIndex := hybridScorerIndex
    assistImpact := assistImpact
    defenseImpact := defenseImpact
    totalContributionIndex := totalContributionIndex }

/-- The non-strict order realized by the sort comparator
b.totalContributionIndex - a.totalContributionIndex ||
b.hybridScorerIndex - a.hybridScorerIndex || a.teamNumber - b.teamNumber. -/
def rowLE (a b : FuelOPRDisplayRow) : Prop :=
  b.totalContributionIndex < a.totalContributionIndex ∨
    (b.totalContributionIndex = a.totalContributionIndex ∧
      (b.hybridScorerIndex < a.hybridScorerIndex ∨
        (b.hybridScorerIndex = a.hybridScorerIndex ∧ a.teamNumber ≤ b.teamNumber)))

instance : DecidableRel rowLE := fun a b => by
  unfold rowLE
  infer_instance

instance : IsTotal FuelOPRDisplayRow rowLE := by
  constructor
  intro a b
  unfold rowLE
  rcases lt_trichotomy a.totalContributionIndex b.totalContributionIndex with h | h | h
  · exact Or.inr (Or.inl h)
  · rcases lt_trichotomy a.hybridScorerIndex b.hybridScorerIndex with h2 | h2 | h2
    · exact Or.inr (Or.inr ⟨h, Or.inl h2⟩)
    · rcases le_total a.teamNumber b.teamNumber with h3 | h3
      · exact Or.inl (Or.inr ⟨h.symm, Or.inr ⟨h2.symm, h3⟩⟩)
      · exact Or.inr (Or.inr ⟨h, Or.inr ⟨h2, h3⟩⟩)
    · exact Or.inl (Or.inr ⟨h.symm, Or.inl h2⟩)
  · exact Or.inl (Or.inl h)

instance : IsTrans FuelOPRDisplayRow rowLE := by
  constructor
  intro a b c hab hbc
  unfold rowLE at hab hbc ⊢
  rcases hab with h1 | ⟨h1, h1'⟩
  · rcases hbc with h2 | ⟨h2, _⟩
    · exact Or.inl (h2.trans h1)
    · exact Or.inl (lt_of_le_of_lt h2.le h1)
  · rcases hbc with h2 | ⟨h2, h2'⟩
    · exact Or.inl (lt_of_lt_of_le h2 h1.le)
    · refine Or.inr ⟨h2.trans h1, ?_⟩
      rcases h1' with h3 | ⟨h3, h3'⟩
      · rcases h2' with h4 | ⟨h4, _⟩
        · exact Or.inl (h4.trans h3)
        · exact Or.inl (lt_of_le_of_lt h4.le h3)
      · rcases h2' with h4 | ⟨h4, h4'⟩
        · exact Or.inl (lt_of_lt_of_le h4 h3.le)
        · exact Or.inr ⟨h4.trans h3, h3'.trans h4'⟩

/-- The strict order between an earlier and a later output row. -/
def rowLT (a b : FuelOPRDisplayRow) : Prop :=
  b.totalContributionIndex < a.totalContributionIndex ∨
    (b.totalContributionIndex = a.totalContributionIndex ∧
      (b.hybridScorerIndex < a.hybridScorerIndex ∨
        (b.hybridScorerIndex = a.hybridScorerIndex ∧ a.teamNumber < b.teamNumber)))

/-- Embeds buildRows: one row per team of the combined key set, sorted by
the comparator.  The comparator is a strict total order on rows with
pairwise distinct team numbers, so the sorted output is the unique sorted
permutation and any correct sorting algorithm realizes it. -/
def buildRows (oprRows : List FuelOPRTeam) (matchList : List CachedMatch)
    (entries : List ScoutingEntry) (includePlayoffs : Bool) : List FuelOPRDisplayRow :=
  List.insertionSort rowLE
    ((allTeamNumbers oprRows matchList entries includePlayoffs).map
      (buildRow oprRows matchList entries includePlayoffs))

/-- The appearance sequence over the eligible matches: every membership
of a team in an alliance of an eligible match contributes once. -/
def allianceAppearances (matchList : List CachedMatch) (includePlayoffs : Bool) : List ℕ :=
  (eligibleMatches matchList includePlayoffs).flatMap
    (fun m => getAllianceTeams m AllianceColor.red ++ getAllianceTeams m AllianceColor.blue)

/-- Modelled from the spec: the OPR solver (the game-template fuelOpr
module, absent from this code base) reports matchesPlayed as the number
of alliance appearances of the team over the filtered match set,
regardless of clamping or regularization mode. -/
def oprMatchesPlayedSpec (matchList : List CachedMatch) (includePlayoffs : Bool) (team : ℕ) : ℕ :=
  (allianceAppearances matchList includePlayoffs).count team

/-- Modelled from the spec: the solver output covers every team appearing
in an alliance of the filtered matches and reports each listed team's
matchesPlayed as its alliance-appearance count. -/
def SolverContract (oprRows : List FuelOPRTeam) (matchList : List CachedMatch)
    (includePlayoffs : Bool) : Prop :=
  (∀ r ∈ oprRows, r.matchesPlayed = oprMatchesPlayedSpec matchList includePlayoffs r.teamNumber)
    ∧ (∀ t ∈ allianceAppearances matchList includePlayoffs, ∃ r ∈ oprRows, r.teamNumber = t)

instance (oprRows : List FuelOPRTeam) (matchList : List CachedMatch) (includePlayoffs : Bool) :
    Decidable (SolverContract oprRows matchList includePlayoffs) := by
  unfold SolverContract
  infer_instance

/-- The manual tally of alliance memberships of a team over the raw
(unfiltered) input match list. -/
def manualAllianceTally (matchList : List CachedMatch) (team : ℕ) : ℕ :=
  (matchList.flatMap
    (fun m => getAllianceTeams m AllianceColor.red ++ getAllianceTeams m AllianceColor.blue)).count team

/-- The number of scouted entries recorded for a team. -/
def entryCountOf (entries : List ScoutingEntry) (team : ℕ) : ℕ :=
  (entries.filter (fun e => e.teamNumber = team)).length

/-- The spec-side suppression samples a team collects from one match:
one sample per membership in a defending alliance. -/
def matchSamples (oprRows : List FuelOPRTeam) (team : ℕ) (m : CachedMatch) : List ℚ :=
  [AllianceColor.red, AllianceColor.blue].flatMap (fun alliance =>
    List.replicate ((getAllianceTeams m alliance).count team)
      (perTeamSuppression oprRows m alliance))

/-- The spec-side suppression sample list of a team: one sample per
membership in a defending alliance of an eligible match. -/
def defenseSamples (oprRows : List FuelOPRTeam) (matchList : List CachedMatch)
    (includePlayoffs : Bool) (team : ℕ) : List ℚ :=
  (eligibleMatches matchList includePlayoffs).flatMap (matchSamples oprRows team)

/-- The spec-side expected output of an alliance: the sum of each of its
teams' total OPR, with 0 for teams absent from the OPR result. -/
def expectedAllianceOPR (oprRows : List FuelOPRTeam) (teams : List ℕ) : ℚ :=
  (teams.map (fun t => ((oprByTeam oprRows t).map FuelOPRTeam.totalFuelOPR).getD 0)).sum

/-- Spec-side formulation of an ordered probe list where the first finite
value wins. -/
def firstFiniteProbe (probes : List (Option ℚ)) : Option ℚ :=
  (probes.filterMap id).head?

/-- The full ordered probe list of extractPassingValue after coercion:
the direct alias fields followed by the action-derived values. -/
def passingProbes (gameData : GameData) : List (Option ℚ) :=
  (passingFields gameData).map toFiniteNumber ++ passingActionDerived gameData

/-- The coerced probe list of the auto fuel count of parseFuelCounts. -/
def autoFuelProbes (gameData : GameData) : List (Option ℚ) :=
  [numProbe (gameData.auto.bind PhaseData.fuelScoredCount),
   numProbe (gameData.auto.bind PhaseData.fuelScored),
   numProbe gameData.autoFuelScored]

/-- The coerced probe list of the teleop fuel count of parseFuelCounts. -/
def teleopFuelProbes (gameData : GameData) : List (Option ℚ) :=
  [numProbe (gameData.teleop.bind PhaseData.fuelScoredCount),
   numProbe (gameData.teleop.bind PhaseData.fuelScored),
   numProbe gameData.teleopFuelScored]

/-- Division that fails on a zero divisor: the one way the composer could
turn finite operands into NaN or Infinity. -/
def divChecked (a b : ℚ) : Option ℚ := if b = 0 then none else some (a / b)

/-- Checked variant of perTeamSuppression. -/
def perTeamSuppressionChecked (oprRows : List FuelOPRTeam) (m : CachedMatch)
    (alliance : AllianceColor) : Option ℚ :=
  let defendingTeams := getAllianceTeams m alliance
  let opponentAlliance := alliance.opp
  let opponentTeams := getAllianceTeams m opponentAlliance
  let observedOpponentFuel := getObservedTotal m opponentAlliance
  let expectedOpponentFuel := opponentTeams.foldl
    (fun sum t => sum + ((oprByTeam oprRows t).map FuelOPRTeam.totalFuelOPR).getD 0) 0
  let suppression := expectedOpponentFuel - observedOpponentFuel
  if 0 < defendingTeams.length then divChecked suppression (defendingTeams.length : ℚ)
  else some 0

/-- Checked variant of defenseStep. -/
def defenseStepChecked (oprRows : List FuelOPRTeam) (team : ℕ) (acc : Option DefenseAgg)
    (m : CachedMatch) : Option DefenseAgg :=
  [AllianceColor.red, AllianceColor.blue].foldl (fun acc2 alliance =>
    acc2.bind (fun a => (perTeamSuppressionChecked oprRows m alliance).map (fun s =>
      let cnt := (getAllianceTeams m alliance).count team
      ⟨a.suppressionSum + cnt * s, a.samples + cnt⟩))) acc

/-- Checked variant of defenseByTeam. -/
def defenseByTeamChecked (oprRows : List FuelOPRTeam) (matchList : List CachedMatch)
    (includePlayoffs : Bool) (team : ℕ) : Option DefenseAgg :=
  (eligibleMatches matchList includePlayoffs).foldl
    (defenseStepChecked oprRows team) (some ⟨0, 0⟩)

/-- Checked variant of matchPenaltyOf. -/
def matchPenaltyChecked (matchesPlayed : ℕ) : Option ℚ :=
  let targetMatches : ℚ := 6
  (divChecked (targetMatches - (matchesPlayed : ℚ)) targetMatches).map (fun x => max 0 x)

/-- Checked variant of gapPenaltyOf. -/
def gapPenaltyChecked (totalFuelOPR scaledTotalAvg : ℚ) (hasScaledFuelData : Bool) : Option ℚ :=
  let gap := |totalFuelOPR - scaledTotalAvg|
  let scaleBase := max 1 (max |totalFuelOPR| |scaledTotalAvg|)
  if hasScaledFuelData then (divChecked gap scaleBase).map clamp01 else some 0

/-- Checked variant of sosPenaltyOf. -/
def sosPenaltyChecked (avgSos : Option ℚ) : Option ℚ :=
  match avgSos with
  | some v => (divChecked v 6).map clamp01
  | none => some 0

/-- Checked variant of buildRow: every division site of the composer
fails on a zero divisor instead of producing a non-finite number. -/
def buildRowChecked (oprRows : List FuelOPRTeam) (matchList : List CachedMatch)
    (entries : List ScoutingEntry) (includePlayoffs : Bool)
    (teamNumber : ℕ) : Option FuelOPRDisplayRow := do
  let oprTeam := oprByTeam oprRows teamNumber
  let scaledTeam := scaledByTeam entries teamNumber
  let matchesPlayed := max ((oprTeam.map FuelOPRTeam.matchesPlayed).getD 0) scaledTeam.matchesCount
  let fuelDataMatches := scaledTeam.fuelDataMatches
  let hasScaledFuelData : Bool := decide (0 < fuelDataMatches)
  let scaledAutoAvg ← if hasScaledFuelData then
      divChecked scaledTeam.autoSum (fuelDataMatches : ℚ) else some 0
  let scaledTeleopAvg ← if hasScaledFuelData then
      divChecked scaledTeam.teleopSum (fuelDataMatches : ℚ) else some 0
  let scaledTotalAvg := scaledAutoAvg + scaledTeleopAvg
  let totalFuelOPR := (oprTeam.map FuelOPRTeam.totalFuelOPR).getD 0
  let passingAggregate := passingByTeam entries teamNumber
  let hasPassingData : Bool := decide (0 < passingAggregate.passDataMatches)
  let passingAvg ← if hasPassingData then
      divChecked passingAggregate.passSum (passingAggregate.passDataMatches : ℚ) else some 0
  let defenseAggregate ← defenseByTeamChecked oprRows matchList includePlayoffs teamNumber
  let defenseImpact ← if 0 < defenseAggregate.samples then
      divChecked defenseAggregate.suppressionSum (defenseAggregate.samples : ℚ) else some 0
  let assistImpact := passingAvg
  let sosAggregate := sosByTeam entries teamNumber
  let avgSos ← if 0 < sosAggregate.count then
      (divChecked sosAggregate.sum (sosAggregate.count : ℚ)).map (fun v => some v)
    else some none
  let sosPenalty ← sosPenaltyChecked avgSos
  let matchPenalty ← matchPenaltyChecked matchesPlayed
  let gapPenalty ← gapPenaltyChecked totalFuelOPR scaledTotalAvg hasScaledFuelData
  let missingScaledPenalty := missingScaledPenaltyOf hasScaledFuelData
  let confidencePenalty := clamp01 (0.35 * matchPenalty + 0.25 * gapPenalty
    + 0.15 * sosPenalty + 0.25 * missingScaledPenalty)
  let confidenceScore := 1 - confidencePenalty
  let hybridBase := if hasScaledFuelData then
      0.6 * scaledTotalAvg + 0.4 * totalFuelOPR else totalFuelOPR
  let hybridScorerIndex := hybridBase * confidenceScore
  let assistComponent := if hasPassingData then assistImpact * 0.2 else 0
  let defenseComponent := defenseImpact * 0.2
  let totalContributionIndex := hybridScorerIndex + assistComponent + defenseComponent
  pure { teamNumber := teamNumber
         matchesPlayed := matchesPlayed
         autoFuelOPR := (oprTeam.map FuelOPRTeam.autoFuelOPR).getD 0
         teleopFuelOPR := (oprTeam.map FuelOPRTeam.teleopFuelOPR).getD 0
         totalFuelOPR := totalFuelOPR
         scaledAutoAvg := scaledAutoAvg
         scaledTeleopAvg := scaledTeleopAvg
         scaledTotalAvg := scaledTotalAvg
         confidenceScore := confidenceScore
         confidencePenalty := confidencePenalty
         sosPenalty := sosPenalty
         hybridScorerIndex := hybridScorerIndex
         assistImpact := assistImpact
         defenseImpact := defenseImpact
         totalContributionIndex := totalContributionIndex }

/-- A minimal OPR result listing one team with zero appearances, as the
solver reports for a team absent from every (filtered) match. -/
def opr0 : List FuelOPRTeam := [⟨1, 0, 0, 0, 0⟩]

/-- The output row of the composer on opr0 with no matches and no
entries. -/
def row0 : FuelOPRDisplayRow :=
  ⟨1, 0, 0, 0, 0, 0, 0, 0, 1/2, 1/2, 0, 0, 0, 0, 0⟩

/-- An entry for team 7 carrying no gameData. -/
def e7 : ScoutingEntry := ⟨7, none⟩

/-- A gameData in which two passing alias fields hold finite numbers. -/
def gd9 : GameData :=
  { GameData.empty with
    teleop := some ⟨none, none, some (JSVal.num 3), none, none, none, none⟩
    totalFuelPassed := some (JSVal.num 5) }

/-- A qualification match of team 1 against team 2 whose score breakdown
is missing entirely. -/
def mX : CachedMatch := ⟨"qm", ⟨⟨[some 1]⟩, ⟨[some 2]⟩⟩, none⟩

/-- An OPR result for mX crediting team 2 with a total OPR of 5; both
teams appear once, matching the solver contract on [mX]. -/
def oprX : List FuelOPRTeam := [⟨1, 0, 0, 0, 1⟩, ⟨2, 2, 3, 5, 1⟩]

/-- A playoff match of team 1 against team 2. -/
def mP : CachedMatch := ⟨"sf", ⟨⟨[some 1]⟩, ⟨[some 2]⟩⟩, none⟩

/-- The output row of team 1 for oprX and mX: one defense sample of 5. -/
def row1X : FuelOPRDisplayRow :=
  ⟨1, 1, 0, 0, 0, 0, 0, 0, 67/120, 53/120, 0, 0, 0, 5, 1⟩

/-! Helper lemmas. -/

theorem buildRow_teamNumber (oprRows : List FuelOPRTeam) (matchList : List CachedMatch)
    (entries : List ScoutingEntry) (includePlayoffs : Bool) (t : ℕ) :
    (buildRow oprRows matchList entries includePlayoffs t).teamNumber = t := rfl

theorem mem_buildRows {oprRows : List FuelOPRTeam} {matchList : List CachedMatch}
    {entries : List ScoutingEntry} {includePlayoffs : Bool} {r : FuelOPRDisplayRow} :
    r ∈ buildRows oprRows matchList entries includePlayoffs ↔
      ∃ t ∈ allTeamNumbers oprRows matchList entries includePlayoffs,
        buildRow oprRows matchList entries includePlayoffs t = r := by
  unfold buildRows
  rw [(List.perm_insertionSort rowLE _).mem_iff]
  exact List.mem_map

theorem foldl_add_map {α : Type} (f : α → ℚ) (l : List α) (a : ℚ) :
    l.foldl (fun sum x => sum + f x) a = a + (l.map f).sum := by
  induction l generalizing a with
  | nil => simp
  | cons x xs ih => simp [ih, add_assoc]

theorem foldl_add (l : List ℚ) (a : ℚ) :
    l.foldl (fun sum v => sum + v) a = a + l.sum := by
  induction l generalizing a with
  | nil => simp
  | cons x xs ih => simp [ih, add_assoc]

theorem oprByTeam_foldl_spec (rows : List FuelOPRTeam) (t : ℕ) :
    ∀ (acc : Option FuelOPRTeam) (r : FuelOPRTeam),
      rows.foldl (fun acc r => if r.teamNumber = t then some r else acc) acc = some r →
      acc = some r ∨ (r ∈ rows ∧ r.teamNumber = t) := by
  induction rows with
  | nil => exact fun acc r h => Or.inl h
  | cons x xs ih =>
    intro acc r h
    rw [List.foldl_cons] at h
    rcases ih _ r h with h' | ⟨hm, ht⟩
    · by_cases hx : x.teamNumber = t
      · rw [if_pos hx] at h'
        have hxr := Option.some.inj h'
        subst hxr
        exact Or.inr ⟨List.mem_cons_self x xs, hx⟩
      · rw [if_neg hx] at h'
        exact Or.inl h'
    · exact Or.inr ⟨List.mem_cons_of_mem x hm, ht⟩

theorem oprByTeam_spec {rows : List FuelOPRTeam} {t : ℕ} {r : FuelOPRTeam}
    (h : oprByTeam rows t = some r) : r ∈ rows ∧ r.teamNumber = t := by
  rcases oprByTeam_foldl_spec rows t none r h with h' | h'
  · exact absurd h' (by simp)
  · exact h'

theorem oprByTeam_foldl_isSome (rows : List FuelOPRTeam) (t : ℕ) :
    ∀ acc : Option FuelOPRTeam, acc.isSome →
      (rows.foldl (fun acc r => if r.teamNumber = t then some r else acc) acc).isSome := by
  induction rows with
  | nil => exact fun acc h => h
  | cons x xs ih =>
    intro acc h
    rw [List.foldl_cons]
    apply ih
    by_cases hx : x.teamNumber = t <;> simp [hx, h]

theorem oprByTeam_isSome {rows : List FuelOPRTeam} {t : ℕ}
    (h : ∃ r ∈ rows, r.teamNumber = t) : (oprByTeam rows t).isSome := by
  induction rows with
  | nil =>
    rcases h with ⟨r, hr, _⟩
    cases hr
  | cons x xs ih =>
    unfold oprByTeam
    rw [List.foldl_cons]
    by_cases hx : x.teamNumber = t
    · rw [if_pos hx]
      exact oprByTeam_foldl_isSome xs t (some x) rfl
    · rw [if_neg hx]
      rcases h with ⟨r, hr, hrt⟩
      rcases List.mem_cons.mp hr with hre | hm
      · exact absurd (hre ▸ hrt) hx
      · exact ih ⟨r, hm, hrt⟩

theorem scaledByTeam_foldl_matchesCount (t : ℕ) (l : List ScoutingEntry) :
    ∀ acc : ScaledAgg, (l.foldl (scaledStep t) acc).matchesCount
      = acc.matchesCount + entryCountOf l t := by
  induction l with
  | nil => intro acc; simp [entryCountOf]
  | cons x xs ih =>
    intro acc
    rw [List.foldl_cons, ih]
    by_cases hx : x.teamNumber = t
    · by_cases hf : hasFuelData x.gd <;>
        simp [scaledStep, hx, hf, entryCountOf, List.filter_cons] <;> omega
    · simp [scaledStep, hx, entryCountOf, List.filter_cons]

theorem scaledByTeam_matchesCount (entries : List ScoutingEntry) (t : ℕ) :
    (scaledByTeam entries t).matchesCount = entryCountOf entries t := by
  unfold scaledByTeam
  rw [scaledByTeam_foldl_matchesCount]
  simp

theorem scaledByTeam_of_no_entries {entries : List ScoutingEntry} {t : ℕ}
    (h : ∀ x ∈ entries, x.teamNumber ≠ t) : scaledByTeam entries t = ⟨0, 0, 0, 0⟩ := by
  unfold scaledByTeam
  induction entries with
  | nil => rfl
  | cons x xs ih =>
    rw [List.foldl_cons]
    have hx : x.teamNumber ≠ t := h x (List.mem_cons_self x xs)
    rw [show scaledStep t ⟨0, 0, 0, 0⟩ x = ⟨0, 0, 0, 0⟩ by simp [scaledStep, hx]]
    exact ih (fun y hy => h y (List.mem_cons_of_mem x hy))

theorem passingByTeam_of_no_entries {entries : List ScoutingEntry} {t : ℕ}
    (h : ∀ x ∈ entries, x.teamNumber ≠ t) : passingByTeam entries t = ⟨0, 0⟩ := by
  unfold passingByTeam
  induction entries with
  | nil => rfl
  | cons x xs ih =>
    rw [List.foldl_cons]
    have hx : x.teamNumber ≠ t := h x (List.mem_cons_self x xs)
    rw [show passingStep t ⟨0, 0⟩ x = ⟨0, 0⟩ by simp [passingStep, hx]]
    exact ih (fun y hy => h y (List.mem_cons_of_mem x hy))

theorem sosByTeam_of_no_entries {entries : List ScoutingEntry} {t : ℕ}
    (h : ∀ x ∈ entries, x.teamNumber ≠ t) : sosByTeam entries t = ⟨0, 0⟩ := by
  unfold sosByTeam
  induction entries with
  | nil => rfl
  | cons x xs ih =>
    rw [List.foldl_cons]
    have hx : x.teamNumber ≠ t := h x (List.mem_cons_self x xs)
    rw [show sosStep t ⟨0, 0⟩ x = ⟨0, 0⟩ by simp [sosStep, hx]]
    exact ih (fun y hy => h y (List.mem_cons_of_mem x hy))

theorem no_entries_of_entryCount_zero {entries : List ScoutingEntry} {t : ℕ}
    (h : entryCountOf entries t = 0) : ∀ x ∈ entries, x.teamNumber ≠ t := by
  intro x hx hxt
  have hmem : x ∈ entries.filter (fun e => e.teamNumber = t) :=
    List.mem_filter.mpr ⟨hx, by simp [hxt]⟩
  rw [List.length_eq_zero.mp h] at hmem
  cases hmem

theorem defenseStep_eq (oprRows : List FuelOPRTeam) (t : ℕ) (acc : DefenseAgg) (m : CachedMatch) :
    defenseStep oprRows t acc m =
      ⟨acc.suppressionSum
        + ((getAllianceTeams m AllianceColor.red).count t) * perTeamSuppression oprRows m AllianceColor.red
        + ((getAllianceTeams m AllianceColor.blue).count t) * perTeamSuppression oprRows m AllianceColor.blue,
       acc.samples + (getAllianceTeams m AllianceColor.red).count t
        + (getAllianceTeams m AllianceColor.blue).count t⟩ := rfl

theorem matchSamples_sum (oprRows : List FuelOPRTeam) (t : ℕ) (m : CachedMatch) :
    (matchSamples oprRows t m).sum =
      ((getAllianceTeams m AllianceColor.red).count t) * perTeamSuppression oprRows m AllianceColor.red
        + ((getAllianceTeams m AllianceColor.blue).count t) * perTeamSuppression oprRows m AllianceColor.blue := by
  simp [matchSamples, List.sum_replicate, nsmul_eq_mul]

theorem matchSamples_length (oprRows : List FuelOPRTeam) (t : ℕ) (m : CachedMatch) :
    (matchSamples oprRows t m).length =
      (getAllianceTeams m AllianceColor.red).count t
        + (getAllianceTeams m AllianceColor.blue).count t := by
  simp [matchSamples]

theorem defense_foldl_sum (oprRows : List FuelOPRTeam) (t : ℕ) (l : List CachedMatch) :
    ∀ acc : DefenseAgg, (l.foldl (defenseStep oprRows t) acc).suppressionSum
      = acc.suppressionSum + (l.flatMap (matchSamples oprRows t)).sum := by
  induction l with
  | nil => intro acc; simp
  | cons m ms ih =>
    intro acc
    rw [List.foldl_cons, ih, List.flatMap_cons, List.sum_append, defenseStep_eq]
    simp [matchSamples_sum]
    ring

theorem defense_foldl_samples (oprRows : List FuelOPRTeam) (t : ℕ) (l : List CachedMatch) :
    ∀ acc : DefenseAgg, (l.foldl (defenseStep oprRows t) acc).samples
      = acc.samples + (l.flatMap (matchSamples oprRows t)).length := by
  induction l with
  | nil => intro acc; simp
  | cons m ms ih =>
    intro acc
    rw [List.foldl_cons, ih, List.flatMap_cons, List.length_append, defenseStep_eq]
    simp [matchSamples_length]
    omega

theorem defenseByTeam_suppressionSum (oprRows : List FuelOPRTeam) (matchList : List CachedMatch)
    (includePlayoffs : Bool) (t : ℕ) :
    (defenseByTeam oprRows matchList includePlayoffs t).suppressionSum
      = (defenseSamples oprRows matchList includePlayoffs t).sum := by
  unfold defenseByTeam defenseSamples
  rw [defense_foldl_sum]
  simp

theorem defenseByTeam_samples (oprRows : List FuelOPRTeam) (matchList : List CachedMatch)
    (includePlayoffs : Bool) (t : ℕ) :
    (defenseByTeam oprRows matchList includePlayoffs t).samples
      = (defenseSamples oprRows matchList includePlayoffs t).length := by
  unfold defenseByTeam defenseSamples
  rw [defense_foldl_samples]
  simp

theorem defenseSamples_length_eq_tally (oprRows : List FuelOPRTeam) (matchList : List CachedMatch)
    (includePlayoffs : Bool) (t : ℕ) :
    (defenseSamples oprRows matchList includePlayoffs t).length
      = oprMatchesPlayedSpec matchList includePlayoffs t := by
  unfold defenseSamples oprMatchesPlayedSpec allianceAppearances
  generalize eligibleMatches matchList includePlayoffs = l
  induction l with
  | nil => simp
  | cons m ms ih =>
    rw [List.flatMap_cons, List.flatMap_cons, List.length_append, List.count_append,
      List.count_append, matchSamples_length, ih]

theorem defenseByTeam_samples_eq_tally (oprRows : List FuelOPRTeam) (matchList : List CachedMatch)
    (includePlayoffs : Bool) (t : ℕ) :
    (defenseByTeam oprRows matchList includePlayoffs t).samples
      = oprMatchesPlayedSpec matchList includePlayoffs t := by
  rw [defenseByTeam_samples, defenseSamples_length_eq_tally]

theorem divChecked_of_ne {a b : ℚ} (h : b ≠ 0) : divChecked a b = some (a / b) := if_neg h

theorem perTeamSuppressionChecked_eq (oprRows : List FuelOPRTeam) (m : CachedMatch)
    (alliance : AllianceColor) :
    perTeamSuppressionChecked oprRows m alliance = some (perTeamSuppression oprRows m alliance) := by
  simp only [perTeamSuppressionChecked, perTeamSuppression]
  split_ifs with h
  · rw [divChecked_of_ne (Nat.cast_ne_zero.mpr h.ne')]
  · rfl

theorem defenseStepChecked_some (oprRows : List FuelOPRTeam) (t : ℕ) (a : DefenseAgg)
    (m : CachedMatch) :
    defenseStepChecked oprRows t (some a) m = some (defenseStep oprRows t a m) := by
  simp [defenseStepChecked, defenseStep, perTeamSuppressionChecked_eq]

theorem defenseByTeamChecked_eq (oprRows : List FuelOPRTeam) (matchList : List CachedMatch)
    (includePlayoffs : Bool) (t : ℕ) :
    defenseByTeamChecked oprRows matchList includePlayoffs t
      = some (defenseByTeam oprRows matchList includePlayoffs t) := by
  unfold defenseByTeamChecked defenseByTeam
  generalize eligibleMatches matchList includePlayoffs = l
  suffices h : ∀ a : DefenseAgg, l.foldl (defenseStepChecked oprRows t) (some a)
      = some (l.foldl (defenseStep oprRows t) a) from h ⟨0, 0⟩
  induction l with
  | nil => intro a; rfl
  | cons m ms ih =>
    intro a
    rw [List.foldl_cons, List.foldl_cons, defenseStepChecked_some]
    exact ih _

theorem matchPenaltyChecked_eq (matchesPlayed : ℕ) :
    matchPenaltyChecked matchesPlayed = some (matchPenaltyOf matchesPlayed) := by
  simp only [matchPenaltyChecked, matchPenaltyOf]
  rw [divChecked_of_ne (by norm_num : (6 : ℚ) ≠ 0)]
  rfl

theorem gapPenaltyChecked_eq (totalFuelOPR scaledTotalAvg : ℚ) (hasScaledFuelData : Bool) :
    gapPenaltyChecked totalFuelOPR scaledTotalAvg hasScaledFuelData
      = some (gapPenaltyOf totalFuelOPR scaledTotalAvg hasScaledFuelData) := by
  simp only [gapPenaltyChecked, gapPenaltyOf]
  have hb : (0 : ℚ) < max 1 (max |totalFuelOPR| |scaledTotalAvg|) :=
    lt_of_lt_of_le one_pos (le_max_left _ _)
  split_ifs with h
  · rw [divChecked_of_ne hb.ne']
    rfl
  · rfl

theorem sosPenaltyChecked_eq (avgSos : Option ℚ) :
    sosPenaltyChecked avgSos = some (sosPenaltyOf avgSos) := by
  cases avgSos with
  | none => rfl
  | some v =>
    simp only [sosPenaltyChecked, sosPenaltyOf]
    rw [divChecked_of_ne (by norm_num : (6 : ℚ) ≠ 0)]
    rfl

theorem divCheckedNat_if (a : ℚ) (n : ℕ) :
    (if (decide (0 < n)) = true then divChecked a (n : ℚ) else some 0)
      = some (if (decide (0 < n)) = true then a / (n : ℚ) else 0) := by
  by_cases h : 0 < n
  · simp [h, divChecked_of_ne (Nat.cast_ne_zero.mpr h.ne')]
  · simp [h]

theorem divCheckedNat_ifP (a : ℚ) (n : ℕ) :
    (if 0 < n then divChecked a (n : ℚ) else some 0)
      = some (if 0 < n then a / (n : ℚ) else 0) := by
  by_cases h : 0 < n
  · simp [h, divChecked_of_ne (Nat.cast_ne_zero.mpr h.ne')]
  · simp [h]

theorem sosAvgChecked_if (s : ℚ) (n : ℕ) :
    (if 0 < n then (divChecked s (n : ℚ)).map (fun v => some v) else some none)
      = some (if 0 < n then some (s / (n : ℚ)) else none) := by
  by_cases h : 0 < n
  · simp [h, divChecked_of_ne (Nat.cast_ne_zero.mpr h.ne')]
  · simp [h]

theorem buildRowChecked_eq (oprRows : List FuelOPRTeam) (matchList : List CachedMatch)
    (entries : List ScoutingEntry) (includePlayoffs : Bool) (t : ℕ) :
    buildRowChecked oprRows matchList entries includePlayoffs t
      = some (buildRow oprRows matchList entries includePlayoffs t) := by
  by_cases h1 : 0 < (scaledByTeam entries t).fuelDataMatches <;>
  by_cases h2 : 0 < (passingByTeam entries t).passDataMatches <;>
  by_cases h3 : 0 < (defenseByTeam oprRows matchList includePlayoffs t).samples <;>
  by_cases h4 : 0 < (sosByTeam entries t).count <;>
  simp [Nat.pos_iff_ne_zero] at h1 h2 h3 h4 <;>
  simp [buildRowChecked, buildRow, defenseByTeamChecked_eq, matchPenaltyChecked_eq,
    gapPenaltyChecked_eq, sosPenaltyChecked_eq, divChecked, Nat.cast_eq_zero,
    Nat.pos_iff_ne_zero, h1, h2, h3, h4]

theorem rowLE_ne_lt {a b : FuelOPRDisplayRow} (h : rowLE a b)
    (hne : a.teamNumber ≠ b.teamNumber) : rowLT a b := by
  unfold rowLE at h
  unfold rowLT
  rcases h with h | ⟨h1, h2 | ⟨h2, h3⟩⟩
  · exact Or.inl h
  · exact Or.inr ⟨h1, Or.inl h2⟩
  · exact Or.inr ⟨h1, Or.inr ⟨h2, lt_of_le_of_ne h3 hne⟩⟩

/-- Claim C1: for every row of the composer output, hybridScorerIndex is
the confidence score times the 0.6/0.4 blend of the scaled average and
the total OPR when the team has at least one match with usable production
data, else the confidence score times the total OPR; and
totalContributionIndex adds 0.2 times the assist impact exactly when the
team has passing data, plus 0.2 times the defense impact. -/
theorem C1_hybrid_and_total_index (oprRows : List FuelOPRTeam) (matchList : List CachedMatch)
    (entries : List ScoutingEntry) (includePlayoffs : Bool) (r : FuelOPRDisplayRow)
    (hr : r ∈ buildRows oprRows matchList entries includePlayoffs) :
    (r.hybridScorerIndex =
      if 0 < (scaledByTeam entries r.teamNumber).fuelDataMatches then
        r.confidenceScore * (0.6 * r.scaledTotalAvg + 0.4 * r.totalFuelOPR)
      else r.confidenceScore * r.totalFuelOPR) ∧
    r.totalContributionIndex = r.hybridScorerIndex
      + (if 0 < (passingByTeam entries r.teamNumber).passDataMatches then 0.2 * r.assistImpact else 0)
      + 0.2 * r.defenseImpact := by
  obtain ⟨t, ht, rfl⟩ := mem_buildRows.mp hr
  constructor
  · simp only [buildRow_teamNumber]
    simp [buildRow]
    split_ifs with h <;> ring
  · simp only [buildRow_teamNumber]
    simp [buildRow]
    split_ifs with h <;> ring

/-- Claim C2: for every row of the composer output, confidencePenalty is
the clamped weighted penalty sum with matchPenalty = max(0, (6 -
matchesPlayed)/6) against the fixed target of 6 and missingScaledPenalty
equal to 0.6 exactly when the team has no match with usable production
data, and confidenceScore = 1 - confidencePenalty. -/
theorem C2_confidence_penalty (oprRows : List FuelOPRTeam) (matchList : List CachedMatch)
    (entries : List ScoutingEntry) (includePlayoffs : Bool) (r : FuelOPRDisplayRow)
    (hr : r ∈ buildRows oprRows matchList entries includePlayoffs) :
    r.confidencePenalty = clamp01 (0.35 * matchPenaltyOf r.matchesPlayed
      + 0.25 * gapPenaltyOf r.totalFuelOPR r.scaledTotalAvg
          (decide (0 < (scaledByTeam entries r.teamNumber).fuelDataMatches))
      + 0.15 * r.sosPenalty
      + 0.25 * missingScaledPenaltyOf
          (decide (0 < (scaledByTeam entries r.teamNumber).fuelDataMatches))) ∧
    matchPenaltyOf r.matchesPlayed = max 0 ((6 - (r.matchesPlayed : ℚ)) / 6) ∧
    missingScaledPenaltyOf (decide (0 < (scaledByTeam entries r.teamNumber).fuelDataMatches))
      = (if (scaledByTeam entries r.teamNumber).fuelDataMatches = 0 then 0.6 else 0) ∧
    r.confidenceScore = 1 - r.confidencePenalty := by
  obtain ⟨t, ht, rfl⟩ := mem_buildRows.mp hr
  refine ⟨?_, rfl, ?_, ?_⟩
  · simp only [buildRow_teamNumber]
    simp [buildRow]
  · simp only [buildRow_teamNumber]
    by_cases h : (scaledByTeam entries t).fuelDataMatches = 0 <;>
      simp [missingScaledPenaltyOf, h, Nat.pos_iff_ne_zero]
  · simp [buildRow]

/-- Claim C3: for every row of the composer output, defenseImpact is the
arithmetic mean of the team's suppression samples (0 without samples),
where the sample of a match and defending alliance is the opposing
alliance's expected total OPR (0 for teams absent from the OPR result)
minus its observed total, divided by the size of the defending
alliance. -/
theorem C3_defense_impact_mean (oprRows : List FuelOPRTeam) (matchList : List CachedMatch)
    (entries : List ScoutingEntry) (includePlayoffs : Bool) (r : FuelOPRDisplayRow)
    (hr : r ∈ buildRows oprRows matchList entries includePlayoffs) :
    (r.defenseImpact =
      if (defenseSamples oprRows matchList includePlayoffs r.teamNumber).length = 0 then 0
      else (defenseSamples oprRows matchList includePlayoffs r.teamNumber).sum
        / ((defenseSamples oprRows matchList includePlayoffs r.teamNumber).length : ℚ)) ∧
    ∀ m ∈ eligibleMatches matchList includePlayoffs, ∀ alliance : AllianceColor,
      perTeamSuppression oprRows m alliance =
        if 0 < (getAllianceTeams m alliance).length then
          (expectedAllianceOPR oprRows (getAllianceTeams m alliance.opp)
            - getObservedTotal m alliance.opp) / ((getAllianceTeams m alliance).length : ℚ)
        else 0 := by
  obtain ⟨t, ht, rfl⟩ := mem_buildRows.mp hr
  constructor
  · simp only [buildRow_teamNumber]
    simp only [buildRow, defenseByTeam_samples, defenseByTeam_suppressionSum]
    by_cases h : (defenseSamples oprRows matchList includePlayoffs t).length = 0 <;>
      simp [h, Nat.pos_iff_ne_zero]
  · intro m _ alliance
    simp [perTeamSuppression, expectedAllianceOPR, foldl_add_map]

/-- Claim C4: the composer output is strictly ordered: each row beats the
next by a strictly greater totalContributionIndex, or a tie there and a
strictly greater hybridScorerIndex, or ties on both and a strictly
smaller team number, a deterministic total order. -/
theorem C4_output_strictly_ordered (oprRows : List FuelOPRTeam) (matchList : List CachedMatch)
    (entries : List ScoutingEntry) (includePlayoffs : Bool) :
    List.Chain' rowLT (buildRows oprRows matchList entries includePlayoffs) := by
  have hsorted : List.Pairwise rowLE (buildRows oprRows matchList entries includePlayoffs) :=
    List.sorted_insertionSort rowLE _
  have hperm : (buildRows oprRows matchList entries includePlayoffs).Perm
      ((allTeamNumbers oprRows matchList entries includePlayoffs).map
        (buildRow oprRows matchList entries includePlayoffs)) :=
    List.perm_insertionSort rowLE _
  have hmapid : ((allTeamNumbers oprRows matchList entries includePlayoffs).map
      (buildRow oprRows matchList entries includePlayoffs)).map FuelOPRDisplayRow.teamNumber
      = allTeamNumbers oprRows matchList entries includePlayoffs := by
    rw [List.map_map]
    conv_rhs => rw [show allTeamNumbers oprRows matchList entries includePlayoffs
      = (allTeamNumbers oprRows matchList entries includePlayoffs).map id from
        (List.map_id _).symm]
    exact List.map_congr_left (fun x _ => buildRow_teamNumber _ _ _ _ x)
  have hnodup : ((buildRows oprRows matchList entries includePlayoffs).map
      FuelOPRDisplayRow.teamNumber).Nodup := by
    refine (hperm.map FuelOPRDisplayRow.teamNumber).nodup_iff.mpr ?_
    rw [hmapid]
    exact List.nodup_dedup _
  have hne : List.Pairwise (fun a b : FuelOPRDisplayRow => a.teamNumber ≠ b.teamNumber)
      (buildRows oprRows matchList entries includePlayoffs) := List.pairwise_map.mp hnodup
  exact ((hsorted.and hne).imp (fun h => rowLE_ne_lt h.1 h.2)).chain'

theorem clamp01_nonneg (x : ℚ) : 0 ≤ clamp01 x := le_max_left 0 _

theorem clamp01_le_one (x : ℚ) : clamp01 x ≤ 1 := max_le zero_le_one (min_le_left 1 x)

theorem buildRow_score_penalty (oprRows : List FuelOPRTeam) (matchList : List CachedMatch)
    (entries : List ScoutingEntry) (includePlayoffs : Bool) (t : ℕ) :
    ∃ x, (buildRow oprRows matchList entries includePlayoffs t).confidenceScore = 1 - clamp01 x
      ∧ (buildRow oprRows matchList entries includePlayoffs t).confidencePenalty = clamp01 x :=
  ⟨_, rfl, rfl⟩

/-- Amended claim C5: every team appearing in an alliance of an
includePlayoffs-filtered (eligible) match has exactly one output row, no
team ever has two rows, and rows of teams without usable production data
have zeroed production averages.  The original claim quantified over the
raw input match list; a team appearing only in a playoff match is dropped
when includePlayoffs is false. -/
theorem C5_filtered_team_unique_row (oprRows : List FuelOPRTeam) (matchList : List CachedMatch)
    (entries : List ScoutingEntry) (includePlayoffs : Bool) (t : ℕ)
    (hm : t ∈ allianceAppearances matchList includePlayoffs) :
    ((buildRows oprRows matchList entries includePlayoffs).countP
        (fun r => r.teamNumber == t)) = 1
    ∧ (∀ t' : ℕ, ((buildRows oprRows matchList entries includePlayoffs).countP
        (fun r => r.teamNumber == t')) ≤ 1)
    ∧ (∀ r ∈ buildRows oprRows matchList entries includePlayoffs,
        (scaledByTeam entries r.teamNumber).fuelDataMatches = 0 →
          r.scaledAutoAvg = 0 ∧ r.scaledTeleopAvg = 0 ∧ r.scaledTotalAvg = 0) := by
  have hperm : (buildRows oprRows matchList entries includePlayoffs).Perm
      ((allTeamNumbers oprRows matchList entries includePlayoffs).map
        (buildRow oprRows matchList entries includePlayoffs)) :=
    List.perm_insertionSort rowLE _
  have hcount : ∀ t' : ℕ, (buildRows oprRows matchList entries includePlayoffs).countP
      (fun r => r.teamNumber == t')
      = (allTeamNumbers oprRows matchList entries includePlayoffs).count t' := by
    intro t'
    rw [hperm.countP_eq, List.countP_map]
    have hfun : ((fun r : FuelOPRDisplayRow => r.teamNumber == t')
        ∘ (buildRow oprRows matchList entries includePlayoffs)) = fun x => x == t' := by
      funext x
      simp [buildRow_teamNumber]
    rw [hfun]
    exact (List.count_eq_countP _ _).symm
  have hnodup : (allTeamNumbers oprRows matchList entries includePlayoffs).Nodup :=
    List.nodup_dedup _
  have hmem : t ∈ allTeamNumbers oprRows matchList entries includePlayoffs := by
    unfold allTeamNumbers
    unfold allianceAppearances at hm
    exact List.mem_dedup.mpr (List.mem_append.mpr (Or.inr hm))
  refine ⟨?_, ?_, ?_⟩
  · rw [hcount]
    exact List.count_eq_one_of_mem hnodup hmem
  · intro t'
    rw [hcount]
    exact List.nodup_iff_count_le_one.mp hnodup t'
  · intro r hr hnd
    obtain ⟨t', ht', rfl⟩ := mem_buildRows.mp hr
    rw [buildRow_teamNumber] at hnd
    refine ⟨?_, ?_, ?_⟩ <;> simp [buildRow, hnd]

/-- Counterexample to claim C5 as stated: with a single playoff match and
includePlayoffs false, team 1 appears in an alliance composition of the
input match list yet the output is empty (the empty OPR result satisfies
the solver contract, since the filtered match set is empty). -/
theorem C5_counterexample :
    (1 ∈ getAllianceTeams mP AllianceColor.red)
    ∧ SolverContract [] [mP] false
    ∧ buildRows [] [mP] [] false = [] := by decide

/-- Witness for the amended claim C5 at a concrete event. -/
theorem C5_witness : (1 ∈ allianceAppearances [mX] true)
    ∧ (((buildRows oprX [mX] [] true).countP (fun r => r.teamNumber == 1)) = 1
      ∧ (∀ t' : ℕ, ((buildRows oprX [mX] [] true).countP (fun r => r.teamNumber == t')) ≤ 1)
      ∧ (∀ r ∈ buildRows oprX [mX] [] true,
          (scaledByTeam ([] : List ScoutingEntry) r.teamNumber).fuelDataMatches = 0 →
            r.scaledAutoAvg = 0 ∧ r.scaledTeleopAvg = 0 ∧ r.scaledTotalAvg = 0)) :=
  ⟨by decide, C5_filtered_team_unique_row oprX [mX] [] true 1 (by decide)⟩

/-- Claim C6: for every row of the composer output, confidenceScore lies
in [0, 1], confidencePenalty equals 1 minus confidenceScore, and the
whole row is reproduced by the checked computation in which every
division fails on a zero divisor, so no NaN or Infinity arises from
finite inputs, including for zero-match teams. -/
theorem C6_confidence_bounds_and_finiteness (oprRows : List FuelOPRTeam)
    (matchList : List CachedMatch) (entries : List ScoutingEntry) (includePlayoffs : Bool)
    (r : FuelOPRDisplayRow) (hr : r ∈ buildRows oprRows matchList entries includePlayoffs) :
    0 ≤ r.confidenceScore ∧ r.confidenceScore ≤ 1
    ∧ r.confidencePenalty = 1 - r.confidenceScore
    ∧ buildRowChecked oprRows matchList entries includePlayoffs r.teamNumber = some r := by
  obtain ⟨t, ht, rfl⟩ := mem_buildRows.mp hr
  obtain ⟨x, hsc, hpen⟩ := buildRow_score_penalty oprRows matchList entries includePlayoffs t
  refine ⟨?_, ?_, ?_, ?_⟩
  · rw [hsc]
    exact sub_nonneg.mpr (clamp01_le_one x)
  · rw [hsc]
    have := clamp01_nonneg x
    linarith
  · rw [hsc, hpen]
    ring
  · rw [buildRow_teamNumber]
    exact buildRowChecked_eq oprRows matchList entries includePlayoffs t

unseal Rat.mul Rat.add Rat.sub Rat.inv Rat.ofScientific in
/-- Witness for claim C6 at a concrete zero-match team. -/
theorem C6_witness : row0 ∈ buildRows opr0 [] [] true
    ∧ (0 ≤ row0.confidenceScore ∧ row0.confidenceScore ≤ 1
      ∧ row0.confidencePenalty = 1 - row0.confidenceScore
      ∧ buildRowChecked opr0 [] [] true row0.teamNumber = some row0) :=
  ⟨by decide, C6_confidence_bounds_and_finiteness opr0 [] [] true row0 (by decide)⟩

unseal Rat.mul Rat.add Rat.sub Rat.inv Rat.ofScientific in
/-- Amended claim C7: a team row with zero matches played, no usable
production data and zero totalOPR and scaled average yields matchPenalty
1, missingScaledPenalty 0.6, confidenceScore exactly 0.5 (the original
claim asserted strictly less than 0.5) and totalContributionIndex 0,
under the solver contract on the OPR input. -/
theorem C7_zero_match_team (oprRows : List FuelOPRTeam) (matchList : List CachedMatch)
    (entries : List ScoutingEntry) (includePlayoffs : Bool)
    (hc : SolverContract oprRows matchList includePlayoffs) (r : FuelOPRDisplayRow)
    (hr : r ∈ buildRows oprRows matchList entries includePlayoffs)
    (h0 : r.matchesPlayed = 0)
    (hnd : (scaledByTeam entries r.teamNumber).fuelDataMatches = 0)
    (hopr : r.totalFuelOPR = 0) (hsv : r.scaledTotalAvg = 0) :
    matchPenaltyOf r.matchesPlayed = 1
    ∧ missingScaledPenaltyOf
        (decide (0 < (scaledByTeam entries r.teamNumber).fuelDataMatches)) = 0.6
    ∧ r.confidenceScore = 1/2
    ∧ r.totalContributionIndex = 0 := by
  obtain ⟨t, ht, rfl⟩ := mem_buildRows.mp hr
  rw [buildRow_teamNumber] at hnd
  have hmax : max ((Option.map FuelOPRTeam.matchesPlayed (oprByTeam oprRows t)).getD 0)
      (scaledByTeam entries t).matchesCount = 0 := h0
  obtain ⟨hoprmp, hscnt⟩ := Nat.max_eq_zero_iff.mp hmax
  have hnoent : ∀ x ∈ entries, x.teamNumber ≠ t :=
    no_entries_of_entryCount_zero (by rw [← scaledByTeam_matchesCount]; exact hscnt)
  have hpass : passingByTeam entries t = ⟨0, 0⟩ := passingByTeam_of_no_entries hnoent
  have hsos : sosByTeam entries t = ⟨0, 0⟩ := sosByTeam_of_no_entries hnoent
  have htally : oprMatchesPlayedSpec matchList includePlayoffs t = 0 := by
    by_contra hne
    have hpos : 0 < oprMatchesPlayedSpec matchList includePlayoffs t := Nat.pos_of_ne_zero hne
    have hmem : t ∈ allianceAppearances matchList includePlayoffs := List.count_pos_iff.mp hpos
    have hsome := oprByTeam_isSome (hc.2 t hmem)
    obtain ⟨rx, hrx⟩ := Option.isSome_iff_exists.mp hsome
    obtain ⟨hrxmem, hrxt⟩ := oprByTeam_spec hrx
    have hrxmp := hc.1 rx hrxmem
    rw [hrxt] at hrxmp
    rw [hrx] at hoprmp
    simp at hoprmp
    omega
  have hdef : (defenseByTeam oprRows matchList includePlayoffs t).samples = 0 := by
    rw [defenseByTeam_samples_eq_tally, htally]
  have hopr' : (Option.map FuelOPRTeam.totalFuelOPR (oprByTeam oprRows t)).getD 0 = 0 := hopr
  refine ⟨?_, ?_, ?_, ?_⟩
  · rw [h0]
    decide
  · simp only [buildRow_teamNumber]
    simp [missingScaledPenaltyOf, hnd]
  · show (buildRow oprRows matchList entries includePlayoffs t).confidenceScore = 1/2
    simp only [buildRow, hnd, hpass, hsos, hdef, hscnt, hoprmp]
    norm_num [matchPenaltyOf, gapPenaltyOf, missingScaledPenaltyOf, sosPenaltyOf, clamp01]
  · show (buildRow oprRows matchList entries includePlayoffs t).totalContributionIndex = 0
    simp only [buildRow, hnd, hpass, hsos, hdef, hscnt, hoprmp, hopr']
    norm_num

unseal Rat.mul Rat.add Rat.sub Rat.inv Rat.ofScientific in
/-- Counterexample to claim C7 as stated: a zero-match team with zeroed
inputs (the zero-appearance OPR row satisfies the solver contract on an
empty match list) gets confidenceScore exactly 0.5, not strictly below
0.5 as claimed. -/
theorem C7_counterexample :
    (row0 ∈ buildRows opr0 [] [] true
      ∧ row0.matchesPlayed = 0
      ∧ (scaledByTeam ([] : List ScoutingEntry) row0.teamNumber).fuelDataMatches = 0
      ∧ row0.totalFuelOPR = 0 ∧ row0.scaledTotalAvg = 0
      ∧ SolverContract opr0 [] true)
    ∧ ¬ (row0.confidenceScore < 1/2) := by decide

unseal Rat.mul Rat.add Rat.sub Rat.inv Rat.ofScientific in
/-- Witness for the amended claim C7 at a concrete zero-match team. -/
theorem C7_witness : (SolverContract opr0 [] true ∧ row0 ∈ buildRows opr0 [] [] true
      ∧ row0.matchesPlayed = 0
      ∧ (scaledByTeam ([] : List ScoutingEntry) row0.teamNumber).fuelDataMatches = 0
      ∧ row0.totalFuelOPR = 0 ∧ row0.scaledTotalAvg = 0)
    ∧ (matchPenaltyOf row0.matchesPlayed = 1
      ∧ missingScaledPenaltyOf
          (decide (0 < (scaledByTeam ([] : List ScoutingEntry) row0.teamNumber).fuelDataMatches)) = 0.6
      ∧ row0.confidenceScore = 1/2
      ∧ row0.totalContributionIndex = 0) :=
  ⟨⟨by decide, by decide, by decide, by decide, by decide, by decide⟩,
    C7_zero_match_team opr0 [] [] true (by decide) row0 (by decide) (by decide) (by decide)
      (by decide) (by decide)⟩

/-- Amended claim C8: under the solver contract, a row's matchesPlayed is
the maximum of the alliance-appearance tally over the filtered matches
and the number of scouted entries recorded for the team; the original
claim, equality with the alliance tally of the input match list alone,
fails when entries outnumber appearances. -/
theorem C8_matches_played (oprRows : List FuelOPRTeam) (matchList : List CachedMatch)
    (entries : List ScoutingEntry) (includePlayoffs : Bool)
    (hc : SolverContract oprRows matchList includePlayoffs) (r : FuelOPRDisplayRow)
    (hr : r ∈ buildRows oprRows matchList entries includePlayoffs) :
    r.matchesPlayed = max (oprMatchesPlayedSpec matchList includePlayoffs r.teamNumber)
      (entryCountOf entries r.teamNumber) := by
  obtain ⟨t, ht, rfl⟩ := mem_buildRows.mp hr
  rw [buildRow_teamNumber]
  show max ((Option.map FuelOPRTeam.matchesPlayed (oprByTeam oprRows t)).getD 0)
    (scaledByTeam entries t).matchesCount = _
  rw [scaledByTeam_matchesCount]
  congr 1
  rcases hx : oprByTeam oprRows t with _ | rx
  · simp only [Option.map_none', Option.getD_none]
    by_contra hne
    have hpos : 0 < oprMatchesPlayedSpec matchList includePlayoffs t :=
      Nat.pos_of_ne_zero (fun h => hne h.symm)
    have hmem : t ∈ allianceAppearances matchList includePlayoffs := List.count_pos_iff.mp hpos
    have hsome := oprByTeam_isSome (hc.2 t hmem)
    rw [hx] at hsome
    simp at hsome
  · obtain ⟨hmem, hteam⟩ := oprByTeam_spec hx
    have hmp := hc.1 rx hmem
    rw [hteam] at hmp
    simp [hmp]

unseal Rat.mul Rat.add Rat.sub Rat.inv Rat.ofScientific in
/-- Counterexample to claim C8 as stated: with no matches at all (tally 0
for every team, empty OPR result trivially satisfying the solver
contract) but two scouted entries for team 7, the output reports
matchesPlayed 2, not the alliance tally 0. -/
theorem C8_counterexample :
    manualAllianceTally [] 7 = 0
    ∧ SolverContract [] [] true
    ∧ (buildRows [] [] [e7, e7] true).map FuelOPRDisplayRow.matchesPlayed = [2] := by decide

unseal Rat.mul Rat.add Rat.sub Rat.inv Rat.ofScientific in
/-- Witness for the amended claim C8 at a concrete input. -/
theorem C8_witness : (SolverContract opr0 [] true ∧ row0 ∈ buildRows opr0 [] [] true)
    ∧ row0.matchesPlayed = max (oprMatchesPlayedSpec [] true row0.teamNumber)
        (entryCountOf [] row0.teamNumber) :=
  ⟨⟨by decide, by decide⟩,
    C8_matches_played opr0 [] [] true (by decide) row0 (by decide)⟩

theorem orElse3_firstFinite (a b c : Option ℚ) :
    ((a.orElse (fun _ => b)).orElse (fun _ => c)).getD 0
      = (firstFiniteProbe [a, b, c]).getD 0 := by
  cases a <;> cases b <;> cases c <;> rfl

/-- Amended claim C9: fuel-count extraction (parseFuelCounts) is
first-finite-probe-wins over its per-phase alias list, but passing
extraction (extractPassingValue) is not: it sums every finite probe
result (direct alias fields and action-derived values) and reports
no-data exactly when no probe is finite. -/
theorem C9_extraction_probe_semantics (gameData : GameData) :
    (parseFuelCounts gameData).1 = (firstFiniteProbe (autoFuelProbes gameData)).getD 0
    ∧ (parseFuelCounts gameData).2 = (firstFiniteProbe (teleopFuelProbes gameData)).getD 0
    ∧ (extractPassingValue gameData).1 = ((passingProbes gameData).filterMap id).sum
    ∧ ((extractPassingValue gameData).2 = true ↔ (passingProbes gameData).filterMap id ≠ []) := by
  refine ⟨?_, ?_, ?_, ?_⟩
  · show (((numProbe (gameData.auto.bind PhaseData.fuelScoredCount)).orElse
      (fun _ => numProbe (gameData.auto.bind PhaseData.fuelScored))).orElse
      (fun _ => numProbe gameData.autoFuelScored)).getD 0 = _
    rw [orElse3_firstFinite]
    rfl
  · show (((numProbe (gameData.teleop.bind PhaseData.fuelScoredCount)).orElse
      (fun _ => numProbe (gameData.teleop.bind PhaseData.fuelScored))).orElse
      (fun _ => numProbe gameData.teleopFuelScored)).getD 0 = _
    rw [orElse3_firstFinite]
    rfl
  · show (if (((passingFields gameData).map toFiniteNumber
        ++ passingActionDerived gameData).filterMap id).isEmpty then ((0 : ℚ), false)
      else ((((passingFields gameData).map toFiniteNumber
        ++ passingActionDerived gameData).filterMap id).foldl (fun sum v => sum + v) 0, true)).1
      = (((passingFields gameData).map toFiniteNumber
        ++ passingActionDerived gameData).filterMap id).sum
    generalize ((passingFields gameData).map toFiniteNumber
      ++ passingActionDerived gameData).filterMap id = l
    by_cases h : l = []
    · simp [h]
    · simp [h, foldl_add]
  · show (if (((passingFields gameData).map toFiniteNumber
        ++ passingActionDerived gameData).filterMap id).isEmpty then ((0 : ℚ), false)
      else ((((passingFields gameData).map toFiniteNumber
        ++ passingActionDerived gameData).filterMap id).foldl (fun sum v => sum + v) 0, true)).2
      = true ↔ (((passingFields gameData).map toFiniteNumber
        ++ passingActionDerived gameData).filterMap id) ≠ []
    generalize ((passingFields gameData).map toFiniteNumber
      ++ passingActionDerived gameData).filterMap id = l
    by_cases h : l = []
    · simp [h]
    · simp [h]

unseal Rat.mul Rat.add Rat.sub Rat.inv Rat.ofScientific in
/-- Counterexample to claim C9 as stated: in gd9 two passing alias
fields hold the finite values 3 and 5; the first finite probe is 3, but
the extracted value is their sum 8, a combination of several probes. -/
theorem C9_counterexample :
    extractPassingValue gd9 = (8, true)
    ∧ firstFiniteProbe (passingProbes gd9) = some 3
    ∧ (8 : ℚ) ≠ 3 := by decide

/-- Amended claim C10: matches with missing per-alliance score fields
are not skipped by the defense estimator: the observed total is coerced
to 0 and the match still contributes one suppression sample per
membership of a team in a defending alliance of an eligible match
(likewise, team keys that do not resolve are dropped individually rather
than causing a skip); no skipped-match count is surfaced by this layer. -/
theorem C10_malformed_not_skipped (m : CachedMatch) (alliance : AllianceColor)
    (h : m.score_breakdown = none) :
    getObservedTotal m alliance = 0
    ∧ ∀ (oprRows : List FuelOPRTeam) (matchList : List CachedMatch)
        (includePlayoffs : Bool) (t : ℕ),
        (defenseByTeam oprRows matchList includePlayoffs t).samples
          = oprMatchesPlayedSpec matchList includePlayoffs t := by
  constructor
  · simp [getObservedTotal, h, toFiniteNumber]
  · intro oprRows matchList includePlayoffs t
    exact defenseByTeam_samples_eq_tally oprRows matchList includePlayoffs t

unseal Rat.mul Rat.add Rat.sub Rat.inv Rat.ofScientific in
/-- Counterexample to claim C10 as stated: the score breakdown of mX is
entirely missing, yet the match is not skipped: team 1 collects a defense
sample of 5 (the opposing OPR expectation against an observed total read
as 0), which flows into its defenseImpact; the OPR input satisfies the
solver contract. -/
theorem C10_counterexample :
    mX.score_breakdown = none
    ∧ SolverContract oprX [mX] true
    ∧ (defenseByTeam oprX [mX] true 1).samples = 1
    ∧ (defenseByTeam oprX [mX] true 1).suppressionSum = 5
    ∧ (buildRow oprX [mX] [] true 1).defenseImpact = 5 := by decide

unseal Rat.mul Rat.add Rat.sub Rat.inv Rat.ofScientific in
/-- Witness for the amended claim C10 at the concrete malformed match. -/
theorem C10_witness : mX.score_breakdown = none
    ∧ (getObservedTotal mX AllianceColor.red = 0
      ∧ ∀ (oprRows : List FuelOPRTeam) (matchList : List CachedMatch)
          (includePlayoffs : Bool) (t : ℕ),
          (defenseByTeam oprRows matchList includePlayoffs t).samples
            = oprMatchesPlayedSpec matchList includePlayoffs t) :=
  ⟨by decide, C10_malformed_not_skipped mX AllianceColor.red (by decide)⟩

unseal Rat.mul Rat.add Rat.sub Rat.inv Rat.ofScientific in
/-- Witness for claim C1 at a concrete row. -/
theorem C1_witness : row0 ∈ buildRows opr0 [] [] true
    ∧ ((row0.hybridScorerIndex =
        if 0 < (scaledByTeam ([] : List ScoutingEntry) row0.teamNumber).fuelDataMatches then
          row0.confidenceScore * (0.6 * row0.scaledTotalAvg + 0.4 * row0.totalFuelOPR)
        else row0.confidenceScore * row0.totalFuelOPR)
      ∧ row0.totalContributionIndex = row0.hybridScorerIndex
        + (if 0 < (passingByTeam ([] : List ScoutingEntry) row0.teamNumber).passDataMatches then
            0.2 * row0.assistImpact else 0)
        + 0.2 * row0.defenseImpact) :=
  ⟨by decide, C1_hybrid_and_total_index opr0 [] [] true row0 (by decide)⟩

unseal Rat.mul Rat.add Rat.sub Rat.inv Rat.ofScientific in
/-- Witness for claim C2 at a concrete row. -/
theorem C2_witness : row0 ∈ buildRows opr0 [] [] true
    ∧ (row0.confidencePenalty = clamp01 (0.35 * matchPenaltyOf row0.matchesPlayed
        + 0.25 * gapPenaltyOf row0.totalFuelOPR row0.scaledTotalAvg
            (decide (0 < (scaledByTeam ([] : List ScoutingEntry) row0.teamNumber).fuelDataMatches))
        + 0.15 * row0.sosPenalty
        + 0.25 * missingScaledPenaltyOf
            (decide (0 < (scaledByTeam ([] : List ScoutingEntry) row0.teamNumber).fuelDataMatches)))
      ∧ matchPenaltyOf row0.matchesPlayed = max 0 ((6 - (row0.matchesPlayed : ℚ)) / 6)
      ∧ missingScaledPenaltyOf
          (decide (0 < (scaledByTeam ([] : List ScoutingEntry) row0.teamNumber).fuelDataMatches))
        = (if (scaledByTeam ([] : List ScoutingEntry) row0.teamNumber).fuelDataMatches = 0
            then 0.6 else 0)
      ∧ row0.confidenceScore = 1 - row0.confidencePenalty) :=
  ⟨by decide, C2_confidence_penalty opr0 [] [] true row0 (by decide)⟩

unseal Rat.mul Rat.add Rat.sub Rat.inv Rat.ofScientific in
/-- Witness for claim C3 at a concrete row with one defense sample. -/
theorem C3_witness : row1X ∈ buildRows oprX [mX] [] true
    ∧ ((row1X.defenseImpact =
        if (defenseSamples oprX [mX] true row1X.teamNumber).length = 0 then 0
        else (defenseSamples oprX [mX] true row1X.teamNumber).sum
          / ((defenseSamples oprX [mX] true row1X.teamNumber).length : ℚ))
      ∧ ∀ m ∈ eligibleMatches [mX] true, ∀ alliance : AllianceColor,
          perTeamSuppression oprX m alliance =
            if 0 < (getAllianceTeams m alliance).length then
              (expectedAllianceOPR oprX (getAllianceTeams m alliance.opp)
                - getObservedTotal m alliance.opp)
                / ((getAllianceTeams m alliance).length : ℚ)
            else 0) :=
  ⟨by decide, C3_defense_impact_mean oprX [mX] [] true row1X (by decide)⟩
